import Mathlib

/-
Verification of the large-magnitude estimation and unit-formatting core of
the `lhc` repository.

The embedded code is `calculate_lhc_input_time` in `src/main.py`
(lines 60-182) together with `ParallelLHCComputer.format_large_number` in
`src/parallel_lhc_computation.py` (lines 241-247).  Exact integer/float
arithmetic on the small-exponent path is modelled over `ℚ`; the
logarithm-based path for exponents above 64 is modelled over `ℝ`, with
`Real.logb 10` playing the role of `math.log10`.
-/

namespace LHC

/-- A magnitude is either an exact arbitrary-precision count or a base-10
log-scale approximation, mirroring the `power <= 64` branches at
`src/main.py:74-84` and `src/parallel_lhc_computation.py:241-247`. -/
inductive Magnitude where
  | exact (value : ℕ)
  | logScale (log10_value : ℝ)

/-- A duration is either an exact number of seconds or a log-scale value in
years (the `log10_years > 100` short-circuit at `src/main.py:111-115`). -/
inductive Duration where
  | exact (seconds : ℝ)
  | yearsLog (log10_years : ℝ)

/-- The fixed pulse-rate table, `src/main.py:89-94`. -/
def pulse_rates : List (String × ℚ) :=
  [("Conservative (1 MHz)", 10 ^ 6),
   ("Standard (1 GHz)", 10 ^ 9),
   ("Maximum (1 THz)", 10 ^ 12),
   ("Theoretical Limit", 10 ^ 15)]

/-- Exact-path bit count `total_bits = total_numbers * bits_per_number`
with `total_numbers = 2 ** power`, `src/main.py:64-65,77`. -/
def total_bits (p : ℕ) : ℕ := 2 ^ p * p

/-- Exact-path elapsed time `time_seconds = total_bits / rate_hz`,
`src/main.py:101`. -/
def time_seconds (p : ℕ) (r : ℚ) : ℚ := (total_bits p : ℚ) / r

/-- The magnitude estimator: exact `2 ** power` when `power <= 64`,
otherwise the log-scale value `power * math.log10(2)`; from
`src/main.py:74-84` and `src/parallel_lhc_computation.py:241-247`. -/
noncomputable def estimate (n : ℕ) : Magnitude :=
  if n ≤ 64 then .exact (2 ^ n) else .logScale (n * Real.logb 10 2)

/-- Common log10 view of a magnitude, for cross-variant comparison. -/
noncomputable def toLog10 : Magnitude → ℝ
  | .exact v => Real.logb 10 v
  | .logScale l => l

/-- Log-path bit count `log10_bits = power * log10(2) + log10(power)`,
`src/main.py:81-82`. -/
noncomputable def log10_bits (p : ℕ) : ℝ :=
  p * Real.logb 10 2 + Real.logb 10 p

/-- `log10(time) = log10(total_bits) - log10(rate_hz)`, `src/main.py:106`. -/
noncomputable def log10_time (lb r : ℝ) : ℝ := lb - Real.logb 10 r

/-- `log10_years = log10_time - log10(365.25 * 24 * 3600)`,
`src/main.py:109`. -/
noncomputable def log10_years (lb r : ℝ) : ℝ :=
  log10_time lb r - Real.logb 10 (365.25 * 24 * 3600)

/-- Log-path duration: the `log10_years > 100` short-circuit keeps the
value on the years log scale, otherwise the code exponentiates back to
seconds via `10 ** log10_time`; `src/main.py:106-115`. -/
noncomputable def duration_log (lb r : ℝ) : Duration :=
  if log10_years lb r > 100 then .yearsLog (log10_years lb r)
  else .exact ((10 : ℝ) ^ log10_time lb r)

/-- Python `int(x)`: truncation toward zero. -/
noncomputable def pyInt (x : ℝ) : ℤ :=
  if 0 ≤ x then ⌊x⌋ else -⌊-x⌋

/-- Python fixed-point formatting `f"{x:.2f}"`: the value scaled to
hundredths, rounded to the nearest integer, printed with exactly two
decimal places.  Faithful for the non-negative values arising here. -/
def fixed2 {α : Type} [LinearOrderedField α] [FloorRing α] (x : α) : String :=
  let cents : ℤ := round (x * 100)
  toString (cents / 100) ++ "." ++
    (if cents % 100 < 10 then "0" ++ toString (cents % 100)
     else toString (cents % 100))

/-- Python scientific formatting `f"{x:.2e}"` for `1 ≤ x`: two-decimal
mantissa and a sign-and-two-digit exponent.  Faithful for the magnitudes
reaching the final cascade branch (no mantissa rounding carry). -/
def sci2 {α : Type} [LinearOrderedField α] [FloorRing α] (x : α) : String :=
  let e : ℕ := Nat.log 10 (Int.toNat ⌊x⌋)
  fixed2 (x / 10 ^ e) ++ "e+" ++
    (if e < 10 then "0" ++ toString e else toString e)

/-- The unit-selection cascade of `src/main.py:118-137`, producing the
`time_str` for an exact duration in seconds. -/
def format_time {α : Type} [LinearOrderedField α] [FloorRing α]
    (t : α) : String :=
  if t < 1 / 10 ^ 9 then fixed2 (t * 10 ^ 12) ++ " picoseconds"
  else if t < 1 / 10 ^ 6 then fixed2 (t * 10 ^ 9) ++ " nanoseconds"
  else if t < 1 / 10 ^ 3 then fixed2 (t * 10 ^ 6) ++ " microseconds"
  else if t < 1 then fixed2 (t * 10 ^ 3) ++ " milliseconds"
  else if t < 60 then fixed2 t ++ " seconds"
  else if t < 3600 then fixed2 (t / 60) ++ " minutes"
  else if t < 86400 then fixed2 (t / 3600) ++ " hours"
  else if t < 31536000 then fixed2 (t / 86400) ++ " days"
  else if t < 31536000000 then fixed2 (t / 31536000) ++ " years"
  else sci2 (t / 31536000) ++ " years"

/-- Rendering of a years-log-scale duration,
`f"... ~10^{int(log10_years)} years"` at `src/main.py:112`. -/
noncomputable def render_years (ly : ℝ) : String :=
  "~10^" ++ toString (pyInt ly) ++ " years"

/-- The per-rate duration string produced inside the rate loop of
`src/main.py:99-139` (the rate-label prefix is display-only and omitted,
per the spec's ReportRenderer exclusion). -/
noncomputable def lineFor (p : ℕ) (r : ℚ) : String :=
  if p ≤ 64 then format_time (time_seconds p r)
  else
    match duration_log (log10_bits p) (r : ℝ) with
    | .yearsLog ly => render_years ly
    | .exact s => format_time s

/-- The rate sweep of `calculate_lhc_input_time` over an arbitrary rate
table, paired with the function's return value
`circulation_time = 27000 / 299792458` (`src/main.py:164-166,182`). -/
noncomputable def run_rates (rates : List (String × ℚ)) (p : ℕ) :
    List String × ℚ :=
  (rates.map fun nr => lineFor p nr.2, 27000 / 299792458)

/-- `calculate_lhc_input_time` of `src/main.py:60-182`: the per-rate
duration strings over the fixed rate table, and the returned
light-circulation time. -/
noncomputable def calculate_lhc_input_time (p : ℕ) : List String × ℚ :=
  run_rates pulse_rates p

/-- Modelled from the spec: the `InvalidExponent` validity check of §7 is
not present in `src/` (the Python code performs no input validation); the
spec requires rejecting negative exponents before estimation. -/
noncomputable def estimateChecked (n : ℤ) : Except String Magnitude :=
  if n < 0 then .error "InvalidExponent" else .ok (estimate n.toNat)

lemma log_ten_pos : (0:ℝ) < Real.log 10 := Real.log_pos (by norm_num)

lemma logb_ten_two_pos : (0:ℝ) < Real.logb 10 2 :=
  Real.logb_pos (by norm_num) (by norm_num)

lemma logb_ten_two_gt : (59:ℝ) / 196 < Real.logb 10 2 := by
  rw [show Real.logb 10 2 = Real.log 2 / Real.log 10 from rfl,
    lt_div_iff₀ log_ten_pos]
  have h : Real.log ((10:ℝ) ^ (59:ℕ)) < Real.log ((2:ℝ) ^ (196:ℕ)) :=
    Real.log_lt_log (by positivity) (by norm_num)
  rw [Real.log_pow, Real.log_pow] at h
  push_cast at h
  linarith

lemma logb_ten_two_lt : Real.logb 10 2 < (28:ℝ) / 93 := by
  rw [show Real.logb 10 2 = Real.log 2 / Real.log 10 from rfl,
    div_lt_iff₀ log_ten_pos]
  have h : Real.log ((2:ℝ) ^ (93:ℕ)) < Real.log ((10:ℝ) ^ (28:ℕ)) :=
    Real.log_lt_log (by positivity) (by norm_num)
  rw [Real.log_pow, Real.log_pow] at h
  push_cast at h
  linarith

lemma logb_ten_pow (k : ℕ) : Real.logb 10 ((10:ℝ) ^ k) = k := by
  rw [Real.logb_pow, Real.logb_self_eq_one (by norm_num)]
  ring

lemma logb_spy_gt : (7:ℝ) < Real.logb 10 (365.25 * 24 * 3600) := by
  rw [show (365.25:ℝ) * 24 * 3600 = 31557600 by norm_num,
    show Real.logb 10 31557600 = Real.log 31557600 / Real.log 10 from rfl,
    lt_div_iff₀ log_ten_pos]
  have h : Real.log ((10:ℝ) ^ (7:ℕ)) < Real.log 31557600 :=
    Real.log_lt_log (by positivity) (by norm_num)
  rw [Real.log_pow] at h
  push_cast at h
  linarith

lemma logb_spy_lt : Real.logb 10 (365.25 * 24 * 3600) < 8 := by
  rw [show (365.25:ℝ) * 24 * 3600 = 31557600 by norm_num,
    show Real.logb 10 31557600 = Real.log 31557600 / Real.log 10 from rfl,
    div_lt_iff₀ log_ten_pos]
  have h : Real.log 31557600 < Real.log ((10:ℝ) ^ (8:ℕ)) :=
    Real.log_lt_log (by norm_num) (by norm_num)
  rw [Real.log_pow] at h
  push_cast at h
  linarith

lemma toLog10_estimate (n : ℕ) :
    toLog10 (estimate n) = n * Real.logb 10 2 := by
  unfold estimate
  split_ifs with h
  · show Real.logb 10 ((2 ^ n : ℕ) : ℝ) = _
    push_cast
    rw [Real.logb_pow]
  · rfl

lemma fixed2_eval {α : Type} [LinearOrderedField α] [FloorRing α] (x : α)
    (c : ℤ) (h : round (x * 100) = c) :
    fixed2 x = toString (c / 100) ++ "." ++
      (if c % 100 < 10 then "0" ++ toString (c % 100)
       else toString (c % 100)) := by
  simp only [fixed2, h]

/-- C1: for every exponent n with 0 ≤ n ≤ 64 the magnitude estimator
returns the exact arbitrary-precision integer 2^n, and for every n > 64 it
returns a log-scale value v with |v - n·log10(2)| < 1e-9, never the
literal integer. -/
theorem C1_estimate_dual_mode (n : ℕ) :
    (n ≤ 64 → estimate n = .exact (2 ^ n)) ∧
    (64 < n → ∃ v : ℝ, estimate n = .logScale v ∧
      |v - n * Real.logb 10 2| < 1 / 10 ^ 9) := by
  constructor
  · intro h
    unfold estimate
    rw [if_pos h]
  · intro h
    refine ⟨n * Real.logb 10 2, ?_, ?_⟩
    · unfold estimate
      rw [if_neg (by omega)]
    · rw [sub_self, abs_zero]
      norm_num

/-- Witness for C1 at the cutoff: n = 64 is exact, n = 65 is log-scale. -/
theorem C1_estimate_dual_mode_witness :
    estimate 64 = .exact (2 ^ 64) ∧
    ∃ v : ℝ, estimate 65 = .logScale v ∧
      |v - ((65 : ℕ) : ℝ) * Real.logb 10 2| < 1 / 10 ^ 9 :=
  ⟨(C1_estimate_dual_mode 64).1 (by norm_num),
   (C1_estimate_dual_mode 65).2 (by norm_num)⟩

/-- C8: estimated magnitudes are strictly monotone in the exponent when
compared on a common log10 basis, across both variants. -/
theorem C8_magnitude_monotone (n1 n2 : ℕ) (h : n1 < n2) :
    toLog10 (estimate n1) < toLog10 (estimate n2) := by
  rw [toLog10_estimate, toLog10_estimate]
  exact mul_lt_mul_of_pos_right (by exact_mod_cast h) logb_ten_two_pos

/-- Witness for C8 at a pair straddling the exact/log-scale cutoff. -/
theorem C8_magnitude_monotone_witness :
    toLog10 (estimate 3) < toLog10 (estimate 100) :=
  C8_magnitude_monotone 3 100 (by norm_num)

/-- C2 fails on the code: for n = 8 the computed bit count is
2^8 · 8 = 2048 (not 256), the elapsed time at 1e9 Hz is 2.048e-6 s
(not 2.56e-7 s), and the formatted string is not "256.00 nanoseconds". -/
theorem C2_roundtrip_counterexample :
    total_bits 8 ≠ 256 ∧
    time_seconds 8 (10 ^ 9) ≠ 256 / 10 ^ 9 ∧
    format_time (time_seconds 8 (10 ^ 9)) ≠ "256.00 nanoseconds" := by
  have ht : time_seconds 8 (10 ^ 9) = 2048 / 10 ^ 9 := by
    norm_num [time_seconds, total_bits]
  refine ⟨by decide, ?_, ?_⟩
  · rw [ht]
    norm_num
  · rw [ht, format_time, if_neg (by norm_num), if_neg (by norm_num),
      if_pos (by norm_num), fixed2_eval _ 205 (by norm_num [round_eq])]
    decide

/-- C2 amended: for n = 8 and rate 1e9 Hz the bit count is 2048, the
elapsed time is 2048/1e9 = 2.048e-6 s, and the formatted duration string
is "2.05 microseconds". -/
theorem C2_roundtrip_amended :
    total_bits 8 = 2048 ∧
    time_seconds 8 (10 ^ 9) = 2048 / 10 ^ 9 ∧
    lineFor 8 (10 ^ 9) = "2.05 microseconds" := by
  have ht : time_seconds 8 (10 ^ 9) = 2048 / 10 ^ 9 := by
    norm_num [time_seconds, total_bits]
  refine ⟨by decide, ht, ?_⟩
  rw [lineFor, if_pos (by norm_num), ht, format_time, if_neg (by norm_num),
    if_neg (by norm_num), if_pos (by norm_num),
    fixed2_eval _ 205 (by norm_num [round_eq])]
  decide

set_option maxHeartbeats 1600000 in
/-- C4: the formatter selects units by the fixed cascade with exclusive
upper bounds (lower-inclusive on the upper branch), each branch rendering
the scaled value to two decimal places followed by the unit label. -/
theorem C4_formatter_cascade (t : ℚ) :
    (t < 1 / 10 ^ 9 → format_time t = fixed2 (t * 10 ^ 12) ++ " picoseconds") ∧
    (1 / 10 ^ 9 ≤ t → t < 1 / 10 ^ 6 →
      format_time t = fixed2 (t * 10 ^ 9) ++ " nanoseconds") ∧
    (1 / 10 ^ 6 ≤ t → t < 1 / 10 ^ 3 →
      format_time t = fixed2 (t * 10 ^ 6) ++ " microseconds") ∧
    (1 / 10 ^ 3 ≤ t → t < 1 →
      format_time t = fixed2 (t * 10 ^ 3) ++ " milliseconds") ∧
    (1 ≤ t → t < 60 → format_time t = fixed2 t ++ " seconds") ∧
    (60 ≤ t → t < 3600 → format_time t = fixed2 (t / 60) ++ " minutes") ∧
    (3600 ≤ t → t < 86400 → format_time t = fixed2 (t / 3600) ++ " hours") ∧
    (86400 ≤ t → t < 31536000 →
      format_time t = fixed2 (t / 86400) ++ " days") ∧
    (31536000 ≤ t → t < 31536000000 →
      format_time t = fixed2 (t / 31536000) ++ " years") ∧
    (31536000000 ≤ t →
      format_time t = sci2 (t / 31536000) ++ " years") := by
  refine ⟨?_, ?_, ?_, ?_, ?_, ?_, ?_, ?_, ?_, ?_⟩ <;>
    · intros
      rw [format_time]
      split_ifs <;> first | linarith | rfl

/-- Witness for C4 at the microsecond/millisecond boundary:
0.0009999 lands in the microseconds branch, 0.001 in milliseconds. -/
theorem C4_formatter_cascade_witness :
    ((1 : ℚ) / 10 ^ 6 ≤ 9999 / 10 ^ 7 ∧ (9999 : ℚ) / 10 ^ 7 < 1 / 10 ^ 3 ∧
      format_time ((9999 : ℚ) / 10 ^ 7) =
        fixed2 ((9999 : ℚ) / 10 ^ 7 * 10 ^ 6) ++ " microseconds") ∧
    ((1 : ℚ) / 10 ^ 3 ≤ 1 / 10 ^ 3 ∧ (1 : ℚ) / 10 ^ 3 < 1 ∧
      format_time ((1 : ℚ) / 10 ^ 3) =
        fixed2 ((1 : ℚ) / 10 ^ 3 * 10 ^ 3) ++ " milliseconds") :=
  ⟨⟨by norm_num, by norm_num,
    (C4_formatter_cascade _).2.2.1 (by norm_num) (by norm_num)⟩,
   ⟨le_refl _, by norm_num,
    (C4_formatter_cascade _).2.2.2.1 (by norm_num) (by norm_num)⟩⟩

/-- C10: for exponent 0 the total bit count is 0, so every rate in the
table yields an elapsed time of 0 seconds, formatted through the
picoseconds branch as "0.00 picoseconds". -/
theorem C10_zero_exponent :
    total_bits 0 = 0 ∧
    ∀ nr ∈ pulse_rates, time_seconds 0 nr.2 = 0 ∧
      lineFor 0 nr.2 = "0.00 picoseconds" := by
  refine ⟨rfl, ?_⟩
  intro nr _
  have h0 : time_seconds 0 nr.2 = 0 := by
    simp [time_seconds, total_bits]
  refine ⟨h0, ?_⟩
  rw [lineFor, if_pos (by norm_num), h0, format_time, if_pos (by norm_num),
    fixed2_eval _ 0 (by norm_num [round_eq])]
  decide

/-- Witness for C10 at the 1 GHz table entry. -/
theorem C10_zero_exponent_witness :
    time_seconds 0 (10 ^ 9) = 0 ∧ lineFor 0 (10 ^ 9) = "0.00 picoseconds" :=
  C10_zero_exponent.2 ("Standard (1 GHz)", 10 ^ 9) (by simp [pulse_rates])

/-- C3: for a log-scale bit count and any table rate, the duration
calculation forms log10_seconds = log10_bits - log10(rate) and
log10_years = log10_seconds - log10(365.25·86400); above the 100-year
log threshold it stays on the years log scale, otherwise it returns the
exact value 10^log10_seconds in seconds. -/
theorem C3_log_duration (lb : ℝ) (nr : String × ℚ)
    (_hmem : nr ∈ pulse_rates) :
    log10_time lb nr.2 = lb - Real.logb 10 nr.2 ∧
    log10_years lb nr.2 =
      log10_time lb nr.2 - Real.logb 10 (365.25 * 86400) ∧
    (100 < log10_years lb nr.2 →
      duration_log lb nr.2 = .yearsLog (log10_years lb nr.2)) ∧
    (log10_years lb nr.2 ≤ 100 →
      duration_log lb nr.2 = .exact ((10 : ℝ) ^ (lb - Real.logb 10 nr.2))) := by
  refine ⟨rfl, ?_, ?_, ?_⟩
  · rw [log10_years, show (365.25 : ℝ) * 86400 = 365.25 * 24 * 3600 by norm_num]
  · intro h
    rw [duration_log, if_pos h]
  · intro h
    rw [duration_log, if_neg (by simpa using h)]
    rfl

/-- Witness for C3 at the 1e15 Hz table entry with log10_bits = 1000. -/
theorem C3_log_duration_witness :
    (("Theoretical Limit", (10 ^ 15 : ℚ)) ∈ pulse_rates) ∧
    duration_log 1000 (((10 ^ 15 : ℚ) : ℝ)) =
      .yearsLog (log10_years 1000 (((10 ^ 15 : ℚ) : ℝ))) := by
  have hmem : ("Theoretical Limit", (10 ^ 15 : ℚ)) ∈ pulse_rates := by
    simp [pulse_rates]
  have h15 : Real.logb 10 (((10 ^ 15 : ℚ) : ℝ)) = 15 := by
    push_cast
    exact_mod_cast logb_ten_pow 15
  refine ⟨hmem, (C3_log_duration 1000 _ hmem).2.2.1 ?_⟩
  show (100 : ℝ) < log10_years 1000 (((10 ^ 15 : ℚ) : ℝ))
  rw [log10_years, log10_time, h15]
  have := logb_spy_lt
  linarith

/-- C5: for n = 4096 the log-path bit count equals
4096·log10(2) + log10(4096), lies in (1236, 1237), log10_years at the
1e15 Hz rate exceeds 100, and the rendered line is "~10^k years" for an
exponent k of the same order of magnitude as the spec's 1221
(in fact k ∈ {1213, 1214}). -/
theorem C5_large_exponent_scenario :
    log10_bits 4096 = 4096 * Real.logb 10 2 + Real.logb 10 4096 ∧
    1236 < log10_bits 4096 ∧ log10_bits 4096 < 1237 ∧
    100 < log10_years (log10_bits 4096) (((10 ^ 15 : ℚ) : ℝ)) ∧
    ∃ k : ℤ, 1213 ≤ k ∧ k ≤ 1214 ∧ 1000 ≤ k ∧ k < 10000 ∧
      lineFor 4096 (10 ^ 15) = "~10^" ++ toString k ++ " years" := by
  have hL1 := logb_ten_two_gt
  have hL2 := logb_ten_two_lt
  have hM1 := logb_spy_gt
  have hM2 := logb_spy_lt
  have h4096 : Real.logb 10 ((4096 : ℕ) : ℝ) = 12 * Real.logb 10 2 := by
    rw [show ((4096 : ℕ) : ℝ) = 2 ^ (12 : ℕ) by norm_num, Real.logb_pow]
    norm_num
  have hb : log10_bits 4096 = 4108 * Real.logb 10 2 := by
    rw [log10_bits, h4096]
    push_cast
    ring
  have h15 : Real.logb 10 (((10 ^ 15 : ℚ) : ℝ)) = 15 := by
    push_cast
    exact_mod_cast logb_ten_pow 15
  have hly : log10_years (log10_bits 4096) (((10 ^ 15 : ℚ) : ℝ)) =
      4108 * Real.logb 10 2 - 15 - Real.logb 10 (365.25 * 24 * 3600) := by
    rw [log10_years, log10_time, hb, h15]
  have hly_lo : (1213 : ℝ) <
      log10_years (log10_bits 4096) (((10 ^ 15 : ℚ) : ℝ)) := by
    rw [hly]
    linarith
  have hly_hi : log10_years (log10_bits 4096) (((10 ^ 15 : ℚ) : ℝ)) <
      (1215 : ℝ) := by
    rw [hly]
    linarith
  have h100 : (100 : ℝ) <
      log10_years (log10_bits 4096) (((10 ^ 15 : ℚ) : ℝ)) := by
    linarith
  refine ⟨by rw [log10_bits]; norm_num, by rw [hb]; linarith,
    by rw [hb]; linarith, h100, ?_⟩
  have hdur : duration_log (log10_bits 4096) (((10 ^ 15 : ℚ) : ℝ)) =
      .yearsLog (log10_years (log10_bits 4096) (((10 ^ 15 : ℚ) : ℝ))) := by
    rw [duration_log, if_pos h100]
  have hfloor_lo : (1213 : ℤ) ≤
      ⌊log10_years (log10_bits 4096) (((10 ^ 15 : ℚ) : ℝ))⌋ :=
    Int.le_floor.mpr (by exact_mod_cast le_of_lt hly_lo)
  have hfloor_hi :
      ⌊log10_years (log10_bits 4096) (((10 ^ 15 : ℚ) : ℝ))⌋ < 1215 :=
    Int.floor_lt.mpr (by exact_mod_cast hly_hi)
  refine ⟨⌊log10_years (log10_bits 4096) (((10 ^ 15 : ℚ) : ℝ))⌋,
    hfloor_lo, by omega, by omega, by omega, ?_⟩
  rw [lineFor, if_neg (by norm_num), hdur]
  show render_years _ = _
  rw [render_years, pyInt, if_pos (by linarith)]

/-- C6 fails on the code: the years-log-scale exponent is rendered with
Python `int()`, which truncates toward zero, not with rounding; at
log10_years = 100.7 the code renders "~10^100 years" while rounding
would give "~10^101 years". -/
theorem C6_render_counterexample :
    render_years ((1007 : ℝ) / 10) = "~10^100 years" ∧
    round ((1007 : ℝ) / 10) = 101 ∧
    ("~10^100 years" : String) ≠ "~10^101 years" := by
  have hf : ⌊(1007 : ℝ) / 10⌋ = 100 := Int.floor_eq_iff.mpr (by norm_num)
  refine ⟨?_, ?_, by decide⟩
  · rw [render_years, pyInt, if_pos (by norm_num), hf]
    decide
  · rw [round_eq]
    exact Int.floor_eq_iff.mpr (by norm_num)

/-- C6 amended: the formatter renders "~10^{int(log10_years)} years",
where the displayed exponent is log10_years truncated toward zero, which
for the values above the 100-year log threshold is its floor. -/
theorem C6_render_truncated (ly : ℝ) (h : 100 < ly) :
    render_years ly = "~10^" ++ toString ⌊ly⌋ ++ " years" := by
  rw [render_years, pyInt, if_pos (by linarith)]

/-- Witness for C6 amended at log10_years = 100.5. -/
theorem C6_render_truncated_witness :
    (100 : ℝ) < 201 / 2 ∧ render_years ((201 : ℝ) / 2) = "~10^100 years" := by
  have h : (100 : ℝ) < 201 / 2 := by norm_num
  have hf : ⌊(201 : ℝ) / 2⌋ = 100 := Int.floor_eq_iff.mpr (by norm_num)
  refine ⟨h, ?_⟩
  rw [C6_render_truncated _ h, hf]
  decide

/-- C7: the only input-validity constraint is a non-negative exponent,
whose violation signals InvalidExponent; all table rates are positive, so
the remaining computations are total. -/
theorem C7_error_handling :
    (∀ n : ℤ, (estimateChecked n = .error "InvalidExponent" ↔ n < 0) ∧
      (0 ≤ n → estimateChecked n = .ok (estimate n.toNat))) ∧
    (∀ nr ∈ pulse_rates, (0 : ℚ) < nr.2) := by
  constructor
  · intro n
    constructor
    · constructor
      · intro h
        by_contra hneg
        rw [estimateChecked, if_neg hneg] at h
        exact absurd h (by simp)
      · intro h
        rw [estimateChecked, if_pos h]
    · intro h
      rw [estimateChecked, if_neg (by omega)]
  · intro nr hmem
    fin_cases hmem <;> norm_num

/-- Witness for C7: a negative exponent is rejected, a valid one accepted,
and the 1 GHz table rate is positive. -/
theorem C7_error_handling_witness :
    estimateChecked (-1) = .error "InvalidExponent" ∧
    estimateChecked 5 = .ok (estimate (Int.toNat 5)) ∧
    (0 : ℚ) < 10 ^ 9 :=
  ⟨(C7_error_handling.1 (-1)).1.mpr (by norm_num),
   (C7_error_handling.1 5).2 (by norm_num),
   C7_error_handling.2 ("Standard (1 GHz)", 10 ^ 9) (by simp [pulse_rates])⟩

/-- C9: the function's return value is the light circulation time
27000/299792458 seconds, for every exponent and every rate table, so no
computed duration or formatted string is carried in the returned value. -/
theorem C9_constant_return :
    ∀ (rates : List (String × ℚ)) (p q : ℕ),
      (run_rates rates p).2 = 27000 / 299792458 ∧
      (calculate_lhc_input_time p).2 = (calculate_lhc_input_time q).2 :=
  fun _ _ _ => ⟨rfl, rfl⟩

end LHC
